import Mathlib

/-!
Verification of the ethsigner key-management and signing engine
(github.com/xueqianLu/ethsigner) against its natural-language specification.

The Go sources are shallowly embedded: byte strings become `List Nat`,
Ethereum addresses and secp256k1 public/private keys become abstract `Nat`
values, Go maps become association lists, and every external effect
(the go-ethereum crypto library, HashiCorp Vault, the filesystem and the
random source) is a function parameter ("oracle") of the embedded
operation.  Error values are the literal Go error strings produced with
`fmt.Errorf`; address rendering (`common.Address.Hex()`) is an oracle
`addrHex` because it involves keccak-based checksumming.
-/

set_option autoImplicit false

namespace EthSigner

/-- Byte strings (Go `[]byte`) are lists of natural numbers; each entry is
meant to be a byte value below 256. -/
abbrev Bytes := List Nat

/-- Ethereum addresses (`common.Address`) are abstract values compared only
for equality. -/
abbrev Address := Nat

/-- Association-list lookup, modelling Go map indexing `m[k]` with its
`ok` flag. -/
def alookup {α β : Type} [DecidableEq α] : List (α × β) → α → Option β
  | [], _ => none
  | (k, v) :: rest, a => if k = a then some v else alookup rest a

/-- Association-list update, modelling Go map assignment `m[k] = v`
(overwrites an existing binding, otherwise appends). -/
def ainsert {α β : Type} [DecidableEq α] : List (α × β) → α → β → List (α × β)
  | [], k, v => [(k, v)]
  | (k', v') :: rest, k, v =>
      if k' = k then (k, v) :: rest else (k', v') :: ainsert rest k v

/-- Set-style insertion, modelling assignment into a Go `map[K]struct` used
as a set. -/
def setInsert (l : List Address) (a : Address) : List Address :=
  if a ∈ l then l else a :: l

/-- Big-endian interpretation of a byte string as a number, modelling
`new(big.Int).SetBytes`. -/
def bytesBE (l : Bytes) : Nat :=
  l.foldl (fun acc b => acc * 256 + b) 0

/-- Byte string of a Lean string literal (all characters involved are
ASCII, so `Char.toNat` is the byte value). -/
def strBytes (s : String) : Bytes := s.data.map Char.toNat

/-- Decimal ASCII representation of a natural number, as bytes. -/
def decimalAscii (n : Nat) : Bytes := (Nat.toDigits 10 n).map Char.toNat

/-! ### Recovery resolver

`recoverV` in `internal/signer/vault_key_manager.go` (lines 307-327); the
`Signer.recoverV` of the vault-only shape (`src/unnamed/part_003`,
lines 105-126) is line-for-line the same algorithm.  The oracle `ecrec`
models `crypto.Ecrecover` composed with `crypto.UnmarshalPubkey`
(both failure modes make the Go loop `continue`, so they are one
`Option`), and `toAddr` models `crypto.PubkeyToAddress`. -/

/-- Body of one iteration of the `recoverV` loop: append the candidate
recovery id `i` to the 64-byte (r,s) signature, attempt public-key
recovery, and compare the derived address with the expected one. -/
def recoverVTry (ecrec : Bytes → Bytes → Option Nat) (toAddr : Nat → Address)
    (signature hash : Bytes) (expectedAddress : Address) (i : Nat) : Option Nat :=
  match ecrec hash (signature ++ [i]) with
  | none => none
  | some pub => if toAddr pub = expectedAddress then some i else none

/-- Model of `recoverV`: try candidate recovery ids 0 and 1 in order and
return the first whose recovered address matches; otherwise fail. -/
def recoverV (ecrec : Bytes → Bytes → Option Nat) (toAddr : Nat → Address)
    (signature hash : Bytes) (expectedAddress : Address) : Except String Nat :=
  match recoverVTry ecrec toAddr signature hash expectedAddress 0 with
  | some v => .ok v
  | none =>
    match recoverVTry ecrec toAddr signature hash expectedAddress 1 with
    | some v => .ok v
    | none => .error "could not recover public key for the given signature"

/-! ### EIP-191 message construction

Both local and vault `SignMessage` build
`fmt.Sprintf "\x19Ethereum Signed Message:\n%d%s" (len message) message`
and hash it with `crypto.Keccak256Hash`. -/

/-- Model of the Go `fmt.Sprintf` call: header string bytes, then the
decimal length (`%d` prints `Nat.repr`), then the raw message bytes. -/
def eip191Bytes (message : Bytes) : Bytes :=
  strBytes "\x19Ethereum Signed Message:\n"
    ++ strBytes (Nat.repr message.length) ++ message

/-- Byte string described by the specification, built independently of
`eip191Bytes`: the byte 0x19, the ASCII text of the header, the newline
byte, the decimal ASCII representation of the message length, and the
message itself. -/
def eip191SpecBytes (message : Bytes) : Bytes :=
  25 :: (strBytes "Ethereum Signed Message:"
    ++ (10 :: (decimalAscii message.length ++ message)))

/-- Model of `signature[64] += 27` (byte arithmetic) on a 65-byte
signature.  Go panics when the slice is shorter; `List.set` is then a
no-op and the relevant theorems assume length 65. -/
def adjustV (signature : Bytes) : Bytes :=
  signature.set 64 ((signature.getD 64 0 + 27) % 256)

/-! ### Transactions and go-ethereum signer semantics

The repository hands signing off to `types.SignTx` / `tx.WithSignature`
with either `types.NewPragueSigner` (local backend) or
`types.NewEIP155Signer` (vault backend).  The relevant library behaviour
is embedded below. -/

/-- Transaction variants used by the service (`types.LegacyTx` and
`types.DynamicFeeTx`); a legacy transaction carries no chain id of its
own, a dynamic-fee transaction does. -/
inductive Tx
  | legacy (nonce gasPrice gas : Nat) (dest : Option Address) (value : Nat) (data : Bytes)
  | dynamicFee (chainId nonce gasTipCap gasFeeCap gas : Nat) (dest : Option Address)
      (value : Nat) (data : Bytes)
deriving DecidableEq

/-- A transaction with the signature fields (v, r, s) attached. -/
structure SignedTx where
  tx : Tx
  r : Nat
  s : Nat
  v : Nat
deriving DecidableEq

/-- First 32 bytes of a 65-byte signature, as a number (the r value of
go-ethereum `decodeSignature`). -/
def sigR (sig : Bytes) : Nat := bytesBE (sig.take 32)

/-- Second 32 bytes of a 65-byte signature, as a number. -/
def sigS (sig : Bytes) : Nat := bytesBE ((sig.drop 32).take 32)

/-- Model of go-ethereum `EIP155Signer.SignatureValues`: any non-legacy
transaction is refused with `ErrTxTypeNotSupported`; for a legacy
transaction v is `sig[64] + 27` when the chain id is zero and
`sig[64] + 35 + 2 * chainId` otherwise (the byte additions are mod 256). -/
def eip155SignatureValues (chainId : Nat) (tx : Tx) (sig : Bytes) :
    Except String (Nat × Nat × Nat) :=
  match tx with
  | .dynamicFee _ _ _ _ _ _ _ _ => .error "transaction type not supported"
  | .legacy _ _ _ _ _ _ =>
    let vRaw := sig.getD 64 0
    let v := if chainId = 0 then (vRaw + 27) % 256 else (vRaw + 35) % 256 + 2 * chainId
    .ok (sigR sig, sigS sig, v)

/-- Model of go-ethereum `pragueSigner.SignatureValues` restricted to the
two transaction shapes the service builds: a dynamic-fee transaction gets
the raw recovery id `sig[64]` (after a chain-id consistency check,
`ErrInvalidChainId`), a legacy transaction falls through to the EIP-155
rule. -/
def pragueSignatureValues (chainId : Nat) (tx : Tx) (sig : Bytes) :
    Except String (Nat × Nat × Nat) :=
  match tx with
  | .dynamicFee txChainId _ _ _ _ _ _ _ =>
    if txChainId ≠ chainId then .error "invalid chain id for signer"
    else .ok (sigR sig, sigS sig, sig.getD 64 0)
  | .legacy _ _ _ _ _ _ => eip155SignatureValues chainId tx sig

/-! ### Local key manager, in-memory variant

First `LocalKeyManager` in `internal/signer/local_key_manager.go`
(lines 18-150): private keys live in a map `keys` from address to key;
signing looks the key up there.  `sign` models `crypto.Sign`,
`pragueHash` models `types.NewPragueSigner(chainID).Hash`. -/

/-- Model of the in-memory variant `LocalKeyManager.SignTx`
(local_key_manager.go lines 107-122). -/
def local1SignTx (sign : Bytes → Nat → Except String Bytes) (pragueHash : Tx → Bytes)
    (addrHex : Address → String) (keys : List (Address × Nat)) (address : Address)
    (tx : Tx) (chainId : Nat) : Except String SignedTx :=
  match alookup keys address with
  | none => .error ("account not found: " ++ addrHex address)
  | some privateKey =>
    match sign (pragueHash tx) privateKey with
    | .error e => .error ("failed to sign transaction: " ++ e)
    | .ok sig =>
      match pragueSignatureValues chainId tx sig with
      | .error e => .error ("failed to sign transaction: " ++ e)
      | .ok (r, s, v) => .ok ⟨tx, r, s, v⟩

/-- Model of the in-memory variant `LocalKeyManager.SignMessage`
(local_key_manager.go lines 125-150): hash the EIP-191 message, call
`crypto.Sign`, then add 27 to the final byte. -/
def local1SignMessage (sign : Bytes → Nat → Except String Bytes) (keccak : Bytes → Bytes)
    (addrHex : Address → String) (keys : List (Address × Nat)) (address : Address)
    (message : Bytes) : Except String Bytes :=
  match alookup keys address with
  | none => .error ("account not found: " ++ addrHex address)
  | some privateKey =>
    let messageHash := keccak (eip191Bytes message)
    match sign messageHash privateKey with
    | .error e => .error ("failed to sign message: " ++ e)
    | .ok signature => .ok (adjustV signature)

/-! ### Vault key manager

`VaultKeyManager` in `internal/signer/vault_key_manager.go`.  The manager
state is the map from address to vault key name; `signVault` models
`signWithVault` (vault call plus response parsing, yielding the 64-byte
r‖s signature). -/

/-- Model of `VaultKeyManager.getKeyName` (vault_key_manager.go
lines 295-304). -/
def vaultGetKeyName (addrHex : Address → String) (m : List (Address × String))
    (address : Address) : Except String String :=
  match alookup m address with
  | some keyName => .ok keyName
  | none => .error ("account not found or not managed by this signer: " ++ addrHex address)

/-- Model of `VaultKeyManager.SignMessage` (vault_key_manager.go
lines 270-293): hash the EIP-191 message, obtain (r,s) from vault,
resolve the recovery id, and append it raw — note there is no `+ 27`
here. -/
def vaultSignMessage (signVault : String → Bytes → Except String Bytes)
    (keccak : Bytes → Bytes) (ecrec : Bytes → Bytes → Option Nat)
    (toAddr : Nat → Address) (addrHex : Address → String)
    (m : List (Address × String)) (address : Address) (_password : String)
    (message : Bytes) : Except String Bytes :=
  match vaultGetKeyName addrHex m address with
  | .error e => .error e
  | .ok keyName =>
    let messageHash := keccak (eip191Bytes message)
    match signVault keyName messageHash with
    | .error e => .error ("failed to sign message with vault: " ++ e)
    | .ok signature =>
      match recoverV ecrec toAddr signature messageHash address with
      | .error e => .error e
      | .ok v => .ok (signature ++ [v])

/-- Model of `VaultKeyManager.SignTx` (vault_key_manager.go
lines 238-267): hash with the EIP-155 signer (`eip155Hash` models
`types.NewEIP155Signer(chainID).Hash`), sign via vault, resolve the
recovery id, and apply the signature through
`tx.WithSignature(EIP155Signer, sig)`. -/
def vaultSignTx (signVault : String → Bytes → Except String Bytes)
    (eip155Hash : Tx → Bytes) (ecrec : Bytes → Bytes → Option Nat)
    (toAddr : Nat → Address) (addrHex : Address → String)
    (m : List (Address × String)) (address : Address) (_password : String)
    (tx : Tx) (chainId : Nat) : Except String SignedTx :=
  match vaultGetKeyName addrHex m address with
  | .error e => .error e
  | .ok keyName =>
    let txHash := eip155Hash tx
    match signVault keyName txHash with
    | .error e => .error ("failed to sign transaction with vault: " ++ e)
    | .ok signature =>
      match recoverV ecrec toAddr signature txHash address with
      | .error e => .error e
      | .ok v =>
        let sig65 := signature ++ [v]
        match eip155SignatureValues chainId tx sig65 with
        | .error e => .error e
        | .ok (r, s, vv) => .ok ⟨tx, r, s, vv⟩

/-- Backend oracle for the vault key-creation flow: the four vault
operations `CreateKey` performs (`Logical().Write` on `keys/<name>`,
`Logical().Read` via `getAddressForKey`, `Logical().Write` on
`keys/<name>/config` with `deletion_allowed`, and `Logical().Delete`). -/
structure VaultBackend where
  createKey : String → Except String Unit
  getAddressForKey : String → Except String Address
  allowDeletion : String → Except String Unit
  deleteKey : String → Except String Unit

/-- Trace entry: one backend call performed by `vaultCreateKey`, in
order. -/
inductive VaultOp
  | createKey (name : String)
  | readKey (name : String)
  | allowDeletion (name : String)
  | deleteKey (name : String)
deriving DecidableEq

/-- Key name generated by `CreateKey`: `fmt.Sprintf "eth-key-%d" id`. -/
def vaultKeyName (id : Nat) : String := "eth-key-" ++ Nat.repr id

/-- Model of `VaultKeyManager.CreateKey` (vault_key_manager.go
lines 104-132).  Returns the result, the updated address map, and the
trace of backend calls.  On failure of `getAddressForKey` after a
successful creation it first enables deletion on the orphan key and, only
when that write succeeded, deletes it; the result of the delete itself is
discarded, and the original error is returned either way. -/
def vaultCreateKey (b : VaultBackend) (id : Nat) (m : List (Address × String)) :
    Except String (Address × String) × List (Address × String) × List VaultOp :=
  let keyName := vaultKeyName id
  match b.createKey keyName with
  | .error e => (.error ("failed to create key in vault: " ++ e), m, [.createKey keyName])
  | .ok _ =>
    match b.getAddressForKey keyName with
    | .error e =>
      match b.allowDeletion keyName with
      | .ok _ => (.error ("failed to get address for new key: " ++ e), m,
          [.createKey keyName, .readKey keyName, .allowDeletion keyName, .deleteKey keyName])
      | .error _ => (.error ("failed to get address for new key: " ++ e), m,
          [.createKey keyName, .readKey keyName, .allowDeletion keyName])
    | .ok address =>
      (.ok (address, ""), ainsert m address keyName, [.createKey keyName, .readKey keyName])

/-- Model of `VaultKeyManager.GetAccounts` (vault_key_manager.go
lines 135-144): the keys of the address map. -/
def vaultGetAccounts (m : List (Address × String)) : List Address :=
  m.map Prod.fst

/-! ### Local key manager, password-taking variant

Second `LocalKeyManager` in `internal/signer/local_key_manager.go`
(lines 179-316): the manager state is a key directory plus a set of
addresses; signing reads and decrypts the key file directly. -/

/-- State of the password variant: the key directory and the in-memory
account set. -/
structure LocalKM2 where
  keyDir : String
  accounts : List Address
deriving DecidableEq

/-- Filesystem model: a map from path to file contents.  `readFile`
models `os.ReadFile`, whose error for a missing file is
`open <path>: no such file or directory`. -/
def readFile (fs : List (String × Bytes)) (path : String) : Except String Bytes :=
  match alookup fs path with
  | some contents => .ok contents
  | none => .error ("open " ++ path ++ ": no such file or directory")

/-- Model of the password variant `getPrivateKey` (local_key_manager.go
lines 264-276): read `keyDir/<address hex>.json` and decrypt it with the
per-call password (`decrypt` models `keystore.DecryptKey`).  The account
set is never consulted. -/
def local2GetPrivateKey (decrypt : Bytes → String → Except String Nat)
    (addrHex : Address → String) (fs : List (String × Bytes)) (km : LocalKM2)
    (address : Address) (password : String) : Except String Nat :=
  let filePath := km.keyDir ++ "/" ++ addrHex address ++ ".json"
  match readFile fs filePath with
  | .error e => .error ("failed to read key file for address " ++ addrHex address ++ ": " ++ e)
  | .ok keyJson =>
    match decrypt keyJson password with
    | .error e => .error ("failed to decrypt key for address " ++ addrHex address ++ ": " ++ e)
    | .ok privateKey => .ok privateKey

/-- Model of the password variant `SignTx` (local_key_manager.go
lines 279-291). -/
def local2SignTx (sign : Bytes → Nat → Except String Bytes) (pragueHash : Tx → Bytes)
    (decrypt : Bytes → String → Except String Nat) (addrHex : Address → String)
    (fs : List (String × Bytes)) (km : LocalKM2) (address : Address) (password : String)
    (tx : Tx) (chainId : Nat) : Except String SignedTx :=
  match local2GetPrivateKey decrypt addrHex fs km address password with
  | .error e => .error e
  | .ok privateKey =>
    match sign (pragueHash tx) privateKey with
    | .error e => .error ("failed to sign transaction: " ++ e)
    | .ok sig =>
      match pragueSignatureValues chainId tx sig with
      | .error e => .error ("failed to sign transaction: " ++ e)
      | .ok (r, s, v) => .ok ⟨tx, r, s, v⟩

/-- Model of the password variant `SignMessage` (local_key_manager.go
lines 294-316). -/
def local2SignMessage (sign : Bytes → Nat → Except String Bytes) (keccak : Bytes → Bytes)
    (decrypt : Bytes → String → Except String Nat) (addrHex : Address → String)
    (fs : List (String × Bytes)) (km : LocalKM2) (address : Address) (password : String)
    (message : Bytes) : Except String Bytes :=
  match local2GetPrivateKey decrypt addrHex fs km address password with
  | .error e => .error e
  | .ok privateKey =>
    let messageHash := keccak (eip191Bytes message)
    match sign messageHash privateKey with
    | .error e => .error ("failed to sign message: " ++ e)
    | .ok signature => .ok (adjustV signature)

/-- Model of the password variant `CreateKey` (local_key_manager.go
lines 219-250).  `genKey` is the outcome of `crypto.GenerateKey`,
`keyAddr` models `crypto.PubkeyToAddress` on the generated key,
`genPassword` the outcome of `generatePassword`, `encrypt` models
`keystore.EncryptKey`, and `writeResult` the outcome of `os.WriteFile`.
Returns the result, the updated manager state and the updated
filesystem. -/
def local2CreateKey (keyAddr : Nat → Address) (encrypt : Nat → String → Except String Bytes)
    (addrHex : Address → String) (genKey : Except String Nat)
    (genPassword : Except String String) (writeResult : Except String Unit)
    (km : LocalKM2) (fs : List (String × Bytes)) :
    Except String (Address × String) × LocalKM2 × List (String × Bytes) :=
  match genKey with
  | .error e => (.error ("failed to generate private key: " ++ e), km, fs)
  | .ok privateKey =>
    let address := keyAddr privateKey
    match genPassword with
    | .error e => (.error ("failed to generate password: " ++ e), km, fs)
    | .ok password =>
      match encrypt privateKey password with
      | .error e => (.error ("failed to encrypt private key: " ++ e), km, fs)
      | .ok keyJson =>
        let filePath := km.keyDir ++ "/" ++ addrHex address ++ ".json"
        match writeResult with
        | .error e => (.error ("failed to save encrypted key: " ++ e), km, fs)
        | .ok _ =>
          (.ok (address, password), ⟨km.keyDir, setInsert km.accounts address⟩,
            ainsert fs filePath keyJson)

/-- Model of the password variant `GetAccounts`: the in-memory account
set. -/
def local2GetAccounts (km : LocalKM2) : List Address := km.accounts

/-! ### HMAC authentication middleware

`AuthMiddleware.Wrap` from `internal/middleware/auth.go` (shown in
`src/todo.md`).  The request body is modelled as an already-read string
(the `ioutil.ReadAll` failure path is an I/O condition outside the
model); `hmacHex` models `hex(HMAC-SHA256(secret, payload))`. -/

/-- Outcome of the middleware: pass the request on, or reject with an
HTTP status and message (`http.Error` calls). -/
inductive AuthResult
  | pass
  | reject (status : Nat) (msg : String)
deriving DecidableEq

/-- An HTTP request as the middleware sees it. -/
structure Request where
  headers : List (String × String)
  body : String

/-- Middleware configuration. -/
structure AuthConfig where
  apiKey : String
  apiSecret : String

/-- Model of `r.Header.Get`: the empty string when the header is
absent. -/
def headerGet (hs : List (String × String)) (name : String) : String :=
  match alookup hs name with
  | some v => v
  | none => ""

/-- Decimal digit value of a character, if any. -/
def digitVal (c : Char) : Option Nat :=
  if '0' ≤ c ∧ c ≤ '9' then some (c.toNat - 48) else none

/-- Accumulating decimal parse of a digit list. -/
def parseDigitsAux : List Char → Nat → Option Nat
  | [], acc => some acc
  | c :: cs, acc =>
    match digitVal c with
    | none => none
    | some d => parseDigitsAux cs (acc * 10 + d)

/-- Parse a non-empty all-digit character list. -/
def parseDigits : List Char → Option Nat
  | [] => none
  | cs => parseDigitsAux cs 0

/-- Model of `strconv.ParseInt(s, 10, 64)`: optional sign, decimal
digits, 64-bit signed range check. -/
def goParseInt64 (s : String) : Option Int :=
  match s.data with
  | [] => none
  | c :: cs =>
    if c = '-' then
      match parseDigits cs with
      | none => none
      | some n => if n ≤ 2 ^ 63 then some (-(n : Int)) else none
    else if c = '+' then
      match parseDigits cs with
      | none => none
      | some n => if n ≤ 2 ^ 63 - 1 then some (n : Int) else none
    else
      match parseDigits (c :: cs) with
      | none => none
      | some n => if n ≤ 2 ^ 63 - 1 then some (n : Int) else none

/-- Model of `AuthMiddleware.Wrap` (src/todo.md lines 97-155): check the
API key, then the timestamp (reject when `now - timestamp > 60`), then
the HMAC signature over `timestamp ++ body`; `hmac.Equal` on the two hex
strings is string equality. -/
def authCheck (hmacHex : String → String → String) (cfg : AuthConfig) (now : Int)
    (req : Request) : AuthResult :=
  let requestAPIKey := headerGet req.headers "X-API-Key"
  if requestAPIKey ≠ cfg.apiKey then .reject 401 "Invalid API Key"
  else
    let timestampStr := headerGet req.headers "X-Timestamp"
    if timestampStr = "" then .reject 401 "Missing timestamp header"
    else
      match goParseInt64 timestampStr with
      | none => .reject 401 "Invalid timestamp format"
      | some timestamp =>
        if now - timestamp > 60 then .reject 401 "Timestamp expired"
        else
          let requestSignature := headerGet req.headers "X-Signature"
          if requestSignature = "" then .reject 401 "Missing signature header"
          else
            let payload := timestampStr ++ req.body
            let expectedSignature := hmacHex cfg.apiSecret payload
            if requestSignature ≠ expectedSignature then .reject 401 "Invalid signature"
            else .pass

/-! ### Concrete instantiations used by witnesses and counterexamples -/

/-- Recovery oracle that always succeeds with public key 7. -/
def ecAll : Bytes → Bytes → Option Nat := fun _ _ => some 7

/-- Recovery oracle that always fails. -/
def ecNone : Bytes → Bytes → Option Nat := fun _ _ => none

/-- Address-derivation oracle mapping every public key to address 5. -/
def toAddr5 : Nat → Address := fun _ => 5

/-- Concrete address renderer for witnesses. -/
def addrHexC : Address → String := fun a => "0x" ++ Nat.repr a

/-- Concrete keccak stand-in for witnesses. -/
def keccakC : Bytes → Bytes := fun b => 90 :: b

/-- A concrete 64-byte (r,s) signature. -/
def rs64C : Bytes := List.replicate 64 7

/-- Local signing oracle returning a 65-byte signature with recovery id 1. -/
def signC1 : Bytes → Nat → Except String Bytes := fun _ _ => .ok (rs64C ++ [1])

/-- Local signing oracle returning a 65-byte signature with recovery id 0. -/
def signC0 : Bytes → Nat → Except String Bytes := fun _ _ => .ok (rs64C ++ [0])

/-- Vault signing oracle returning the 64-byte (r,s) pair. -/
def vsignC : String → Bytes → Except String Bytes := fun _ _ => .ok rs64C

/-- Concrete transaction-hash oracle. -/
def hashC : Tx → Bytes := fun _ => [3]

/-- Concrete decryption oracle yielding private key 99. -/
def decryptC : Bytes → String → Except String Nat := fun _ _ => .ok 99

/-- Concrete encryption oracle. -/
def encryptC : Nat → String → Except String Bytes := fun _ _ => .ok [1]

/-- Concrete HMAC-hex stand-in. -/
def hmC : String → String → String := fun secret payload => "h:" ++ secret ++ ":" ++ payload

/-- Vault backend whose keys all derive address 11. -/
def bOk1 : VaultBackend := ⟨fun _ => .ok (), fun _ => .ok 11, fun _ => .ok (), fun _ => .ok ()⟩

/-- Vault backend whose keys all derive address 22. -/
def bOk2 : VaultBackend := ⟨fun _ => .ok (), fun _ => .ok 22, fun _ => .ok (), fun _ => .ok ()⟩

/-- Vault backend where address derivation fails and the deletion-allowed
write succeeds. -/
def bFail2 : VaultBackend :=
  ⟨fun _ => .ok (), fun _ => .error "boom", fun _ => .ok (), fun _ => .ok ()⟩

/-- A concrete legacy transaction. -/
def legacyTxC : Tx := .legacy 0 20 21000 (some 8) 100 []

/-- A concrete dynamic-fee transaction with chain id 1337. -/
def dynTxC : Tx := .dynamicFee 1337 1 2 30 23000 (some 8) 200 []

/-- A concrete password-variant manager state with no accounts. -/
def km2C : LocalKM2 := ⟨"keys", []⟩

/-- Request with a valid API key and HMAC whose timestamp is far in the
future. -/
def reqFutureC : Request :=
  ⟨[("X-API-Key", "k"), ("X-Timestamp", "2000"), ("X-Signature", "h:s:2000")], ""⟩

/-- Request with a valid API key and HMAC whose timestamp is 61 seconds
in the past relative to `now = 1000`. -/
def reqPast61C : Request :=
  ⟨[("X-API-Key", "k"), ("X-Timestamp", "939"), ("X-Signature", "h:s:939")], ""⟩

/-- Request that omits the `X-API-Key` header entirely. -/
def reqNoKeyC : Request :=
  ⟨[("X-Timestamp", "1000"), ("X-Signature", "h:s:1000")], ""⟩

/-! ### Helper lemmas -/

/-- One loop iteration of `recoverV` returns `some v` exactly when the
candidate `i` recovers a key whose address matches (and then `v = i`). -/
theorem recoverVTry_eq_some (ecrec : Bytes → Bytes → Option Nat) (toAddr : Nat → Address)
    (signature hash : Bytes) (a : Address) (i v : Nat) :
    recoverVTry ecrec toAddr signature hash a i = some v ↔
      v = i ∧ ∃ pub, ecrec hash (signature ++ [i]) = some pub ∧ toAddr pub = a := by
  constructor
  · intro hv
    unfold recoverVTry at hv
    cases h : ecrec hash (signature ++ [i]) with
    | none => rw [h] at hv; cases hv
    | some pub =>
      rw [h] at hv
      by_cases hp : toAddr pub = a
      · simp [hp] at hv
        exact ⟨by omega, pub, rfl, hp⟩
      · simp [hp] at hv
  · rintro ⟨rfl, pub, h, hp⟩
    unfold recoverVTry
    simp [h, hp]

/-- A successful `recoverV` result is one of the two candidates. -/
theorem recoverV_ok_le_one (ecrec : Bytes → Bytes → Option Nat) (toAddr : Nat → Address)
    (signature hash : Bytes) (a : Address) (v : Nat)
    (h : recoverV ecrec toAddr signature hash a = .ok v) : v ≤ 1 := by
  unfold recoverV at h
  cases h0 : recoverVTry ecrec toAddr signature hash a 0 with
  | some w =>
    rw [h0] at h
    injection h with h
    obtain ⟨hw, -⟩ := (recoverVTry_eq_some ecrec toAddr signature hash a 0 w).mp h0
    omega
  | none =>
    rw [h0] at h
    cases h1 : recoverVTry ecrec toAddr signature hash a 1 with
    | some w =>
      rw [h1] at h
      injection h with h
      obtain ⟨hw, -⟩ := (recoverVTry_eq_some ecrec toAddr signature hash a 1 w).mp h1
      omega
    | none => rw [h1] at h; cases h

/-- Reading one past the end of a list extended by one element yields that
element. -/
theorem getD_concat (l : Bytes) (x : Nat) : (l ++ [x]).getD l.length 0 = x := by
  induction l with
  | nil => rfl
  | cons a t ih => simp [ih]

/-- The Go format verb `%d` and the decimal ASCII representation agree. -/
theorem strBytes_repr (n : Nat) : strBytes (Nat.repr n) = decimalAscii n := rfl

/-- The message built by the Go `fmt.Sprintf` call equals the byte string
described by the specification. -/
theorem eip191Bytes_eq_spec (message : Bytes) :
    eip191Bytes message = eip191SpecBytes message := by
  have hpre : strBytes "\x19Ethereum Signed Message:\n"
      = 25 :: (strBytes "Ethereum Signed Message:" ++ [10]) := by decide
  simp [eip191Bytes, eip191SpecBytes, hpre, strBytes_repr]

/-- The key just inserted is among the map keys. -/
theorem mem_fst_ainsert_self {β : Type} (m : List (Address × β)) (a : Address) (v : β) :
    a ∈ (ainsert m a v).map Prod.fst := by
  induction m with
  | nil => simp [ainsert]
  | cons p rest ih =>
    obtain ⟨k, w⟩ := p
    by_cases h : k = a
    · simp [ainsert, h]
    · rw [show ainsert ((k, w) :: rest) a v = (k, w) :: ainsert rest a v from by
        simp [ainsert, h]]
      rw [List.map_cons]
      exact List.mem_cons_of_mem _ ih

/-- Insertion preserves existing map keys. -/
theorem mem_fst_ainsert_of_mem {β : Type} (m : List (Address × β)) (a b : Address) (v : β)
    (h : a ∈ m.map Prod.fst) : a ∈ (ainsert m b v).map Prod.fst := by
  induction m with
  | nil => cases h
  | cons p rest ih =>
    obtain ⟨k, w⟩ := p
    rw [List.map_cons] at h
    by_cases hb : k = b
    · rw [show ainsert ((k, w) :: rest) b v = (b, v) :: rest from by simp [ainsert, hb]]
      rw [List.map_cons]
      rcases List.mem_cons.mp h with h1 | h2
      · rw [h1, hb]; exact List.mem_cons_self b _
      · exact List.mem_cons_of_mem _ h2
    · rw [show ainsert ((k, w) :: rest) b v = (k, w) :: ainsert rest b v from by
        simp [ainsert, hb]]
      rw [List.map_cons]
      rcases List.mem_cons.mp h with h1 | h2
      · rw [h1]; exact List.mem_cons_self k _
      · exact List.mem_cons_of_mem _ (ih h2)

/-- The inserted element is in the set. -/
theorem mem_setInsert_self (l : List Address) (a : Address) : a ∈ setInsert l a := by
  unfold setInsert
  by_cases h : a ∈ l <;> simp [h]

/-- Set insertion preserves membership. -/
theorem mem_setInsert_of_mem (l : List Address) (a b : Address) (h : a ∈ l) :
    a ∈ setInsert l b := by
  unfold setInsert
  by_cases hb : b ∈ l <;> simp [hb, h]

/-! ### Claim theorems -/

/-- Claim C1: for every hash, (r,s) signature and expected address, the
recovery resolver tries candidate v = 0 before v = 1; for each candidate
it recovers the public key and derives its address, returns the first v
whose derived address equals the expected address, and when neither
candidate yields a match (or recovery fails for both) it returns an error
rather than any v. -/
theorem recoverV_resolution (ecrec : Bytes → Bytes → Option Nat) (toAddr : Nat → Address)
    (signature hash : Bytes) (expectedAddress : Address) :
    (∀ pub, ecrec hash (signature ++ [0]) = some pub → toAddr pub = expectedAddress →
      recoverV ecrec toAddr signature hash expectedAddress = .ok 0)
    ∧ (recoverVTry ecrec toAddr signature hash expectedAddress 0 = none →
        ∀ pub, ecrec hash (signature ++ [1]) = some pub → toAddr pub = expectedAddress →
          recoverV ecrec toAddr signature hash expectedAddress = .ok 1)
    ∧ (recoverVTry ecrec toAddr signature hash expectedAddress 0 = none →
        recoverVTry ecrec toAddr signature hash expectedAddress 1 = none →
        recoverV ecrec toAddr signature hash expectedAddress
          = .error "could not recover public key for the given signature")
    ∧ (∀ v, recoverV ecrec toAddr signature hash expectedAddress = .ok v →
        (v = 0 ∨ v = 1) ∧ ∃ pub, ecrec hash (signature ++ [v]) = some pub
          ∧ toAddr pub = expectedAddress) := by
  refine ⟨?_, ?_, ?_, ?_⟩
  · intro pub hp ha
    have h0 : recoverVTry ecrec toAddr signature hash expectedAddress 0 = some 0 :=
      (recoverVTry_eq_some ecrec toAddr signature hash expectedAddress 0 0).mpr
        ⟨rfl, pub, hp, ha⟩
    simp [recoverV, h0]
  · intro h0 pub hp ha
    have h1 : recoverVTry ecrec toAddr signature hash expectedAddress 1 = some 1 :=
      (recoverVTry_eq_some ecrec toAddr signature hash expectedAddress 1 1).mpr
        ⟨rfl, pub, hp, ha⟩
    simp [recoverV, h0, h1]
  · intro h0 h1
    simp [recoverV, h0, h1]
  · intro v hv
    unfold recoverV at hv
    cases h0 : recoverVTry ecrec toAddr signature hash expectedAddress 0 with
    | some w =>
      rw [h0] at hv
      injection hv with hv
      subst hv
      obtain ⟨rfl, pub, hp, ha⟩ :=
        (recoverVTry_eq_some ecrec toAddr signature hash expectedAddress 0 w).mp h0
      exact ⟨Or.inl rfl, pub, hp, ha⟩
    | none =>
      rw [h0] at hv
      cases h1 : recoverVTry ecrec toAddr signature hash expectedAddress 1 with
      | some w =>
        rw [h1] at hv
        injection hv with hv
        subst hv
        obtain ⟨rfl, pub, hp, ha⟩ :=
          (recoverVTry_eq_some ecrec toAddr signature hash expectedAddress 1 w).mp h1
        exact ⟨Or.inr rfl, pub, hp, ha⟩
      | none => rw [h1] at hv; cases hv

/-- Witness for C1: with an oracle that recovers address 5 for every
candidate, the resolver returns v = 0; with an oracle that never
recovers, it returns the error. -/
theorem recoverV_resolution_witness :
    recoverV ecAll toAddr5 [1, 2] [3] 5 = .ok 0
    ∧ recoverV ecNone toAddr5 [1, 2] [3] 5
      = .error "could not recover public key for the given signature" :=
  ⟨(recoverV_resolution ecAll toAddr5 [1, 2] [3] 5).1 7 rfl rfl,
   (recoverV_resolution ecNone toAddr5 [1, 2] [3] 5).2.2.1 rfl rfl⟩

/-- Claim C7: the hash that SignMessage signs (on the local in-memory
variant and on the vault path alike) is keccak-256 of the byte string
formed by the 0x19-prefixed header, the decimal ASCII representation of
the message byte length, and the message bytes. -/
theorem signMessage_signs_eip191_hash :
    (∀ (sign : Bytes → Nat → Except String Bytes) (keccak : Bytes → Bytes)
        (addrHex : Address → String) (keys : List (Address × Nat)) (address : Address)
        (message : Bytes) (privateKey : Nat),
      alookup keys address = some privateKey →
      local1SignMessage sign keccak addrHex keys address message
        = match sign (keccak (eip191SpecBytes message)) privateKey with
          | .error e => .error ("failed to sign message: " ++ e)
          | .ok signature => .ok (adjustV signature))
    ∧ (∀ (signVault : String → Bytes → Except String Bytes) (keccak : Bytes → Bytes)
        (ecrec : Bytes → Bytes → Option Nat) (toAddr : Nat → Address)
        (addrHex : Address → String) (m : List (Address × String)) (address : Address)
        (password : String) (message : Bytes) (keyName : String),
      alookup m address = some keyName →
      vaultSignMessage signVault keccak ecrec toAddr addrHex m address password message
        = match signVault keyName (keccak (eip191SpecBytes message)) with
          | .error e => .error ("failed to sign message with vault: " ++ e)
          | .ok signature =>
            match recoverV ecrec toAddr signature (keccak (eip191SpecBytes message)) address with
            | .error e => .error e
            | .ok v => .ok (signature ++ [v])) := by
  constructor
  · intro sign keccak addrHex keys address message privateKey h
    simp [local1SignMessage, h, eip191Bytes_eq_spec]
  · intro signVault keccak ecrec toAddr addrHex m address password message keyName h
    simp [vaultSignMessage, vaultGetKeyName, h, eip191Bytes_eq_spec]

/-- Witness for C7: concrete evaluation on both the local and the vault
path. -/
theorem signMessage_signs_eip191_hash_witness :
    local1SignMessage signC1 keccakC addrHexC [(5, 99)] 5 [1, 2, 3]
      = .ok (adjustV (rs64C ++ [1]))
    ∧ vaultSignMessage vsignC keccakC ecAll toAddr5 addrHexC [(5, "k")] 5 "pw" [1, 2, 3]
      = .ok (rs64C ++ [0]) :=
  ⟨(signMessage_signs_eip191_hash.1 signC1 keccakC addrHexC [(5, 99)] 5 [1, 2, 3] 99
      rfl).trans rfl,
   (signMessage_signs_eip191_hash.2 vsignC keccakC ecAll toAddr5 addrHexC [(5, "k")] 5 "pw"
      [1, 2, 3] "k" rfl).trans rfl⟩

/-- Claim C2 (code bug): LocalKeyManager.SignMessage adds 27 to the raw
recovery id, so its 65-byte signature ends in 27 or 28, but
VaultKeyManager.SignMessage appends the raw recovery id, so on the vault
backend the final byte is 0 or 1 — here concretely 0, contradicting the
claimed final byte in 27 or 28 for both backends. -/
theorem vault_signMessage_raw_recovery_id :
    vaultSignMessage vsignC keccakC ecAll toAddr5 addrHexC [(5, "k")] 5 "pw" [1, 2, 3]
      = .ok (rs64C ++ [0])
    ∧ (rs64C ++ [0]).length = 65 ∧ (rs64C ++ [0]).getD 64 0 = 0
    ∧ local1SignMessage signC1 keccakC addrHexC [(5, 99)] 5 [1, 2, 3]
      = .ok (rs64C ++ [28])
    ∧ (rs64C ++ [28]).length = 65 ∧ (rs64C ++ [28]).getD 64 0 = 28 := by
  exact ⟨rfl, by decide, by decide, congrArg Except.ok (by decide), by decide, by decide⟩

/-- Claim C3 counterexample: on the Vault backend a DynamicFee
transaction is not signed with v equal to the raw recovery id — the
EIP-155 signer refuses it with a transaction-type error; and on the Local
backend a Legacy transaction with chain id 0 gets v = recoveryId + 27,
not recoveryId + chainId*2 + 35. -/
theorem signTx_v_counterexample :
    vaultSignTx vsignC hashC ecAll toAddr5 addrHexC [(5, "k")] 5 "pw" dynTxC 1337
      = .error "transaction type not supported"
    ∧ local1SignTx signC0 hashC addrHexC [(5, 99)] 5 legacyTxC 0
      = .ok ⟨legacyTxC, sigR (rs64C ++ [0]), sigS (rs64C ++ [0]), 27⟩
    ∧ (27 : Nat) ≠ 0 + 0 * 2 + 35 := by
  exact ⟨rfl, rfl, by decide⟩

/-- Claim C3 (amended): on the Local backend (Prague signer) a Legacy
transaction with nonzero chain id yields v = recoveryId + chainId*2 + 35
and a DynamicFee transaction yields the raw recovery id; on the Vault
backend (EIP-155 signer) a Legacy transaction with nonzero chain id
yields v = recoveryId + chainId*2 + 35, but a DynamicFee transaction
fails with a transaction-type-not-supported error instead of being
signed. -/
theorem signTx_v_amended :
    (∀ (sign : Bytes → Nat → Except String Bytes) (pragueHash : Tx → Bytes)
        (addrHex : Address → String) (keys : List (Address × Nat)) (address : Address)
        (privateKey nonce gasPrice gas : Nat) (dest : Option Address) (value : Nat)
        (data : Bytes) (chainId : Nat) (sig : Bytes),
      alookup keys address = some privateKey →
      sign (pragueHash (Tx.legacy nonce gasPrice gas dest value data)) privateKey = .ok sig →
      sig.getD 64 0 ≤ 1 → chainId ≠ 0 →
      local1SignTx sign pragueHash addrHex keys address
          (Tx.legacy nonce gasPrice gas dest value data) chainId
        = .ok ⟨Tx.legacy nonce gasPrice gas dest value data, sigR sig, sigS sig,
            sig.getD 64 0 + chainId * 2 + 35⟩)
    ∧ (∀ (sign : Bytes → Nat → Except String Bytes) (pragueHash : Tx → Bytes)
        (addrHex : Address → String) (keys : List (Address × Nat)) (address : Address)
        (privateKey chainId nonce tip cap gas : Nat) (dest : Option Address) (value : Nat)
        (data : Bytes) (sig : Bytes),
      alookup keys address = some privateKey →
      sign (pragueHash (Tx.dynamicFee chainId nonce tip cap gas dest value data)) privateKey
        = .ok sig →
      local1SignTx sign pragueHash addrHex keys address
          (Tx.dynamicFee chainId nonce tip cap gas dest value data) chainId
        = .ok ⟨Tx.dynamicFee chainId nonce tip cap gas dest value data, sigR sig, sigS sig,
            sig.getD 64 0⟩)
    ∧ (∀ (signVault : String → Bytes → Except String Bytes) (eip155Hash : Tx → Bytes)
        (ecrec : Bytes → Bytes → Option Nat) (toAddr : Nat → Address)
        (addrHex : Address → String) (m : List (Address × String)) (address : Address)
        (password keyName : String) (nonce gasPrice gas : Nat) (dest : Option Address)
        (value : Nat) (data : Bytes) (chainId : Nat) (rs : Bytes) (v0 : Nat),
      alookup m address = some keyName →
      signVault keyName (eip155Hash (Tx.legacy nonce gasPrice gas dest value data)) = .ok rs →
      rs.length = 64 →
      recoverV ecrec toAddr rs (eip155Hash (Tx.legacy nonce gasPrice gas dest value data))
          address = .ok v0 →
      chainId ≠ 0 →
      vaultSignTx signVault eip155Hash ecrec toAddr addrHex m address password
          (Tx.legacy nonce gasPrice gas dest value data) chainId
        = .ok ⟨Tx.legacy nonce gasPrice gas dest value data, sigR (rs ++ [v0]),
            sigS (rs ++ [v0]), v0 + chainId * 2 + 35⟩)
    ∧ (∀ (signVault : String → Bytes → Except String Bytes) (eip155Hash : Tx → Bytes)
        (ecrec : Bytes → Bytes → Option Nat) (toAddr : Nat → Address)
        (addrHex : Address → String) (m : List (Address × String)) (address : Address)
        (password keyName : String) (chainId nonce tip cap gas : Nat) (dest : Option Address)
        (value : Nat) (data : Bytes) (rs : Bytes) (v0 : Nat),
      alookup m address = some keyName →
      signVault keyName (eip155Hash (Tx.dynamicFee chainId nonce tip cap gas dest value data))
        = .ok rs →
      recoverV ecrec toAddr rs
          (eip155Hash (Tx.dynamicFee chainId nonce tip cap gas dest value data)) address
        = .ok v0 →
      vaultSignTx signVault eip155Hash ecrec toAddr addrHex m address password
          (Tx.dynamicFee chainId nonce tip cap gas dest value data) chainId
        = .error "transaction type not supported") := by
  refine ⟨?_, ?_, ?_, ?_⟩
  · intro sign pragueHash addrHex keys address privateKey nonce gasPrice gas dest value data
      chainId sig hk hs hr hc
    have hb : sig[64]?.getD 0 = sig.getD 64 0 := (List.getD_eq_getElem?_getD sig 64 0).symm
    simp [local1SignTx, hk, hs, pragueSignatureValues, eip155SignatureValues, hc]
    omega
  · intro sign pragueHash addrHex keys address privateKey chainId nonce tip cap gas dest value
      data sig hk hs
    simp [local1SignTx, hk, hs, pragueSignatureValues]
  · intro signVault eip155Hash ecrec toAddr addrHex m address password keyName nonce gasPrice
      gas dest value data chainId rs v0 hk hs hlen hrec hc
    have hv1 : v0 ≤ 1 := recoverV_ok_le_one _ _ _ _ _ _ hrec
    have h64 : (rs ++ [v0])[64]?.getD 0 = v0 := by
      rw [← List.getD_eq_getElem?_getD, ← hlen]
      exact getD_concat rs v0
    simp [vaultSignTx, vaultGetKeyName, hk, hs, hrec, eip155SignatureValues, hc]
    omega
  · intro signVault eip155Hash ecrec toAddr addrHex m address password keyName chainId nonce
      tip cap gas dest value data rs v0 hk hs hrec
    simp [vaultSignTx, vaultGetKeyName, hk, hs, hrec, eip155SignatureValues]

/-- Witness for the amended C3: concrete evaluation of all four cases
(chain id 1337, recovery id 0, so Legacy v = 0 + 1337*2 + 35 = 2709). -/
theorem signTx_v_amended_witness :
    local1SignTx signC0 hashC addrHexC [(5, 99)] 5 legacyTxC 1337
      = .ok ⟨legacyTxC, sigR (rs64C ++ [0]), sigS (rs64C ++ [0]), 0 + 1337 * 2 + 35⟩
    ∧ local1SignTx signC0 hashC addrHexC [(5, 99)] 5 dynTxC 1337
      = .ok ⟨dynTxC, sigR (rs64C ++ [0]), sigS (rs64C ++ [0]), 0⟩
    ∧ vaultSignTx vsignC hashC ecAll toAddr5 addrHexC [(5, "k")] 5 "pw" legacyTxC 1337
      = .ok ⟨legacyTxC, sigR (rs64C ++ [0]), sigS (rs64C ++ [0]), 0 + 1337 * 2 + 35⟩
    ∧ vaultSignTx vsignC hashC ecAll toAddr5 addrHexC [(5, "k")] 5 "pw" dynTxC 1337
      = .error "transaction type not supported" :=
  ⟨signTx_v_amended.1 signC0 hashC addrHexC [(5, 99)] 5 99 0 20 21000 (some 8) 100 [] 1337
      (rs64C ++ [0]) rfl rfl (by decide) (by decide),
   signTx_v_amended.2.1 signC0 hashC addrHexC [(5, 99)] 5 99 1337 1 2 30 23000 (some 8) 200 []
      (rs64C ++ [0]) rfl rfl,
   signTx_v_amended.2.2.1 vsignC hashC ecAll toAddr5 addrHexC [(5, "k")] 5 "pw" "k" 0 20 21000
      (some 8) 100 [] 1337 rs64C 0 rfl rfl (by decide) rfl (by decide),
   signTx_v_amended.2.2.2 vsignC hashC ecAll toAddr5 addrHexC [(5, "k")] 5 "pw" "k" 1337 1 2 30
      23000 (some 8) 200 [] rs64C 0 rfl rfl rfl⟩

/-- Claim C4: when vault-side key creation succeeds but deriving the new
key's address fails, CreateKey returns the original address-derivation
error, leaves the address map unchanged, and attempts the compensating
deletion (the deletion-allowed write always, the delete itself whenever
that write succeeded); the compensation outcome never replaces the
returned error. -/
theorem vault_createKey_compensation (b : VaultBackend) (id : Nat)
    (m : List (Address × String)) (e : String)
    (hc : b.createKey (vaultKeyName id) = .ok ())
    (ha : b.getAddressForKey (vaultKeyName id) = .error e) :
    (vaultCreateKey b id m).1 = .error ("failed to get address for new key: " ++ e)
    ∧ (vaultCreateKey b id m).2.1 = m
    ∧ VaultOp.allowDeletion (vaultKeyName id) ∈ (vaultCreateKey b id m).2.2
    ∧ (b.allowDeletion (vaultKeyName id) = .ok () →
        VaultOp.deleteKey (vaultKeyName id) ∈ (vaultCreateKey b id m).2.2) := by
  cases hd : b.allowDeletion (vaultKeyName id) with
  | ok u => cases u; simp [vaultCreateKey, hc, ha, hd]
  | error e2 => simp [vaultCreateKey, hc, ha, hd]

/-- Witness for C4: a backend whose address derivation fails with "boom"
and whose deletion-allowed write succeeds. -/
theorem vault_createKey_compensation_witness :
    (vaultCreateKey bFail2 3 []).1 = .error ("failed to get address for new key: " ++ "boom")
    ∧ (vaultCreateKey bFail2 3 []).2.1 = []
    ∧ VaultOp.allowDeletion (vaultKeyName 3) ∈ (vaultCreateKey bFail2 3 []).2.2
    ∧ (bFail2.allowDeletion (vaultKeyName 3) = .ok () →
        VaultOp.deleteKey (vaultKeyName 3) ∈ (vaultCreateKey bFail2 3 []).2.2) :=
  vault_createKey_compensation bFail2 3 [] "boom" rfl rfl

/-- Claim C5 counterexample: on the password-taking LocalKeyManager
variant, signing with an address that is absent from the account map (and
has no key file) fails with a file-read error, not an account-not-found
error. -/
theorem local2_absent_account_file_error :
    local2SignTx signC0 hashC decryptC addrHexC [] km2C 5 "pw" legacyTxC 1337
      = .error
        "failed to read key file for address 0x5: open keys/0x5.json: no such file or directory"
    ∧ "failed to read key file for address 0x5: open keys/0x5.json: no such file or directory"
      ≠ "account not found: 0x5"
    ∧ (5 : Address) ∉ local2GetAccounts km2C := by
  exact ⟨rfl, by decide, by decide⟩

/-- Claim C5 (amended): with an address absent from the map, SignTx and
SignMessage fail with the account-not-found error on the Vault backend
and on the in-memory Local variant; on the password-taking Local variant
(which never consults the map) an absent address with no key file fails
with a file-read error instead.  In every case the result is an error
value, never a signature. -/
theorem absent_account_error_amended :
    (∀ (signVault : String → Bytes → Except String Bytes) (eip155Hash : Tx → Bytes)
        (ecrec : Bytes → Bytes → Option Nat) (toAddr : Nat → Address)
        (addrHex : Address → String) (m : List (Address × String)) (address : Address)
        (password : String) (tx : Tx) (chainId : Nat),
      alookup m address = none →
      vaultSignTx signVault eip155Hash ecrec toAddr addrHex m address password tx chainId
        = .error ("account not found or not managed by this signer: " ++ addrHex address))
    ∧ (∀ (signVault : String → Bytes → Except String Bytes) (keccak : Bytes → Bytes)
        (ecrec : Bytes → Bytes → Option Nat) (toAddr : Nat → Address)
        (addrHex : Address → String) (m : List (Address × String)) (address : Address)
        (password : String) (message : Bytes),
      alookup m address = none →
      vaultSignMessage signVault keccak ecrec toAddr addrHex m address password message
        = .error ("account not found or not managed by this signer: " ++ addrHex address))
    ∧ (∀ (sign : Bytes → Nat → Except String Bytes) (pragueHash : Tx → Bytes)
        (addrHex : Address → String) (keys : List (Address × Nat)) (address : Address)
        (tx : Tx) (chainId : Nat),
      alookup keys address = none →
      local1SignTx sign pragueHash addrHex keys address tx chainId
        = .error ("account not found: " ++ addrHex address))
    ∧ (∀ (sign : Bytes → Nat → Except String Bytes) (keccak : Bytes → Bytes)
        (addrHex : Address → String) (keys : List (Address × Nat)) (address : Address)
        (message : Bytes),
      alookup keys address = none →
      local1SignMessage sign keccak addrHex keys address message
        = .error ("account not found: " ++ addrHex address))
    ∧ (∀ (sign : Bytes → Nat → Except String Bytes) (pragueHash : Tx → Bytes)
        (decrypt : Bytes → String → Except String Nat) (addrHex : Address → String)
        (fs : List (String × Bytes)) (km : LocalKM2) (address : Address)
        (password : String) (tx : Tx) (chainId : Nat),
      alookup fs (km.keyDir ++ "/" ++ addrHex address ++ ".json") = none →
      local2SignTx sign pragueHash decrypt addrHex fs km address password tx chainId
        = .error ("failed to read key file for address " ++ addrHex address ++ ": "
            ++ ("open " ++ (km.keyDir ++ "/" ++ addrHex address ++ ".json")
              ++ ": no such file or directory"))) := by
  refine ⟨?_, ?_, ?_, ?_, ?_⟩
  · intro signVault eip155Hash ecrec toAddr addrHex m address password tx chainId h
    simp [vaultSignTx, vaultGetKeyName, h]
  · intro signVault keccak ecrec toAddr addrHex m address password message h
    simp [vaultSignMessage, vaultGetKeyName, h]
  · intro sign pragueHash addrHex keys address tx chainId h
    simp [local1SignTx, h]
  · intro sign keccak addrHex keys address message h
    simp [local1SignMessage, h]
  · intro sign pragueHash decrypt addrHex fs km address password tx chainId h
    simp [local2SignTx, local2GetPrivateKey, readFile, h]

/-- Witness for the amended C5: concrete evaluation of all five cases
with an empty account map and empty filesystem. -/
theorem absent_account_error_amended_witness :
    vaultSignTx vsignC hashC ecAll toAddr5 addrHexC [] 5 "pw" legacyTxC 1337
      = .error ("account not found or not managed by this signer: " ++ addrHexC 5)
    ∧ vaultSignMessage vsignC keccakC ecAll toAddr5 addrHexC [] 5 "pw" [1, 2, 3]
      = .error ("account not found or not managed by this signer: " ++ addrHexC 5)
    ∧ local1SignTx signC0 hashC addrHexC [] 5 legacyTxC 1337
      = .error ("account not found: " ++ addrHexC 5)
    ∧ local1SignMessage signC1 keccakC addrHexC [] 5 [1, 2, 3]
      = .error ("account not found: " ++ addrHexC 5)
    ∧ local2SignTx signC0 hashC decryptC addrHexC [] km2C 5 "pw" legacyTxC 1337
      = .error ("failed to read key file for address " ++ addrHexC 5 ++ ": "
          ++ ("open " ++ (km2C.keyDir ++ "/" ++ addrHexC 5 ++ ".json")
            ++ ": no such file or directory")) :=
  ⟨absent_account_error_amended.1 vsignC hashC ecAll toAddr5 addrHexC [] 5 "pw" legacyTxC
      1337 rfl,
   absent_account_error_amended.2.1 vsignC keccakC ecAll toAddr5 addrHexC [] 5 "pw"
      [1, 2, 3] rfl,
   absent_account_error_amended.2.2.1 signC0 hashC addrHexC [] 5 legacyTxC 1337 rfl,
   absent_account_error_amended.2.2.2.1 signC1 keccakC addrHexC [] 5 [1, 2, 3] rfl,
   absent_account_error_amended.2.2.2.2 signC0 hashC decryptC addrHexC [] km2C 5 "pw"
      legacyTxC 1337 rfl⟩

/-- Claim C6: two sequential successful CreateKey calls whose backend key
material derives two different addresses return those two distinct
addresses, and both are present in a subsequent GetAccounts, on the Vault
backend and on the (password-taking) Local backend alike. -/
theorem createKey_twice_distinct_accounts :
    (∀ (b1 b2 : VaultBackend) (id1 id2 : Nat) (m0 : List (Address × String)) (a1 a2 : Address),
      b1.createKey (vaultKeyName id1) = .ok () →
      b1.getAddressForKey (vaultKeyName id1) = .ok a1 →
      b2.createKey (vaultKeyName id2) = .ok () →
      b2.getAddressForKey (vaultKeyName id2) = .ok a2 →
      a1 ≠ a2 →
      (vaultCreateKey b1 id1 m0).1 = .ok (a1, "")
      ∧ (vaultCreateKey b2 id2 (vaultCreateKey b1 id1 m0).2.1).1 = .ok (a2, "")
      ∧ a1 ≠ a2
      ∧ a1 ∈ vaultGetAccounts (vaultCreateKey b2 id2 (vaultCreateKey b1 id1 m0).2.1).2.1
      ∧ a2 ∈ vaultGetAccounts (vaultCreateKey b2 id2 (vaultCreateKey b1 id1 m0).2.1).2.1)
    ∧ (∀ (keyAddr : Nat → Address) (encrypt : Nat → String → Except String Bytes)
        (addrHex : Address → String) (k1 k2 : Nat) (pw1 pw2 : String) (j1 j2 : Bytes)
        (km0 : LocalKM2) (fs0 : List (String × Bytes)),
      encrypt k1 pw1 = .ok j1 →
      encrypt k2 pw2 = .ok j2 →
      keyAddr k1 ≠ keyAddr k2 →
      (local2CreateKey keyAddr encrypt addrHex (.ok k1) (.ok pw1) (.ok ()) km0 fs0).1
        = .ok (keyAddr k1, pw1)
      ∧ (local2CreateKey keyAddr encrypt addrHex (.ok k2) (.ok pw2) (.ok ())
          (local2CreateKey keyAddr encrypt addrHex (.ok k1) (.ok pw1) (.ok ()) km0 fs0).2.1
          (local2CreateKey keyAddr encrypt addrHex (.ok k1) (.ok pw1) (.ok ()) km0 fs0).2.2).1
        = .ok (keyAddr k2, pw2)
      ∧ keyAddr k1 ≠ keyAddr k2
      ∧ keyAddr k1 ∈ local2GetAccounts
          (local2CreateKey keyAddr encrypt addrHex (.ok k2) (.ok pw2) (.ok ())
            (local2CreateKey keyAddr encrypt addrHex (.ok k1) (.ok pw1) (.ok ()) km0 fs0).2.1
            (local2CreateKey keyAddr encrypt addrHex (.ok k1) (.ok pw1) (.ok ()) km0 fs0).2.2).2.1
      ∧ keyAddr k2 ∈ local2GetAccounts
          (local2CreateKey keyAddr encrypt addrHex (.ok k2) (.ok pw2) (.ok ())
            (local2CreateKey keyAddr encrypt addrHex (.ok k1) (.ok pw1) (.ok ()) km0 fs0).2.1
            (local2CreateKey keyAddr encrypt addrHex (.ok k1) (.ok pw1) (.ok ()) km0 fs0).2.2).2.1) := by
  constructor
  · intro b1 b2 id1 id2 m0 a1 a2 hc1 ha1 hc2 ha2 hne
    have e1 : vaultCreateKey b1 id1 m0
        = (.ok (a1, ""), ainsert m0 a1 (vaultKeyName id1),
            [.createKey (vaultKeyName id1), .readKey (vaultKeyName id1)]) := by
      simp [vaultCreateKey, hc1, ha1]
    have e2 : vaultCreateKey b2 id2 (ainsert m0 a1 (vaultKeyName id1))
        = (.ok (a2, ""), ainsert (ainsert m0 a1 (vaultKeyName id1)) a2 (vaultKeyName id2),
            [.createKey (vaultKeyName id2), .readKey (vaultKeyName id2)]) := by
      simp [vaultCreateKey, hc2, ha2]
    rw [e1]
    refine ⟨rfl, ?_, hne, ?_, ?_⟩
    · rw [e2]
    · rw [e2]
      exact mem_fst_ainsert_of_mem _ a1 a2 _ (mem_fst_ainsert_self m0 a1 _)
    · rw [e2]
      exact mem_fst_ainsert_self _ a2 _
  · intro keyAddr encrypt addrHex k1 k2 pw1 pw2 j1 j2 km0 fs0 he1 he2 hne
    have e1 : (local2CreateKey keyAddr encrypt addrHex (.ok k1) (.ok pw1) (.ok ()) km0 fs0)
        = (.ok (keyAddr k1, pw1), ⟨km0.keyDir, setInsert km0.accounts (keyAddr k1)⟩,
            ainsert fs0 (km0.keyDir ++ "/" ++ addrHex (keyAddr k1) ++ ".json") j1) := by
      simp [local2CreateKey, he1]
    rw [e1]
    have e2 : (local2CreateKey keyAddr encrypt addrHex (.ok k2) (.ok pw2) (.ok ())
          ⟨km0.keyDir, setInsert km0.accounts (keyAddr k1)⟩
          (ainsert fs0 (km0.keyDir ++ "/" ++ addrHex (keyAddr k1) ++ ".json") j1))
        = (.ok (keyAddr k2, pw2),
            ⟨km0.keyDir, setInsert (setInsert km0.accounts (keyAddr k1)) (keyAddr k2)⟩,
            ainsert (ainsert fs0 (km0.keyDir ++ "/" ++ addrHex (keyAddr k1) ++ ".json") j1)
              (km0.keyDir ++ "/" ++ addrHex (keyAddr k2) ++ ".json") j2) := by
      simp [local2CreateKey, he2]
    rw [e2]
    refine ⟨rfl, rfl, hne, ?_, ?_⟩
    · exact mem_setInsert_of_mem _ _ _ (mem_setInsert_self _ _)
    · exact mem_setInsert_self _ _

/-- Witness for C6: concrete backends deriving addresses 11 and 22 on the
vault side, and identity key-to-address derivation on the local side. -/
theorem createKey_twice_distinct_accounts_witness :
    ((vaultCreateKey bOk1 0 []).1 = .ok (11, "")
      ∧ (vaultCreateKey bOk2 1 (vaultCreateKey bOk1 0 []).2.1).1 = .ok (22, "")
      ∧ (11 : Address) ≠ 22
      ∧ (11 : Address) ∈ vaultGetAccounts (vaultCreateKey bOk2 1 (vaultCreateKey bOk1 0 []).2.1).2.1
      ∧ (22 : Address) ∈ vaultGetAccounts (vaultCreateKey bOk2 1 (vaultCreateKey bOk1 0 []).2.1).2.1)
    ∧ ((local2CreateKey (fun k => k) encryptC addrHexC (.ok 1) (.ok "p1") (.ok ()) km2C []).1
        = .ok (1, "p1")
      ∧ (local2CreateKey (fun k => k) encryptC addrHexC (.ok 2) (.ok "p2") (.ok ())
          (local2CreateKey (fun k => k) encryptC addrHexC (.ok 1) (.ok "p1") (.ok ()) km2C []).2.1
          (local2CreateKey (fun k => k) encryptC addrHexC (.ok 1) (.ok "p1") (.ok ()) km2C []).2.2).1
        = .ok (2, "p2")
      ∧ (1 : Address) ≠ 2
      ∧ (1 : Address) ∈ local2GetAccounts
          (local2CreateKey (fun k => k) encryptC addrHexC (.ok 2) (.ok "p2") (.ok ())
            (local2CreateKey (fun k => k) encryptC addrHexC (.ok 1) (.ok "p1") (.ok ()) km2C []).2.1
            (local2CreateKey (fun k => k) encryptC addrHexC (.ok 1) (.ok "p1") (.ok ()) km2C []).2.2).2.1
      ∧ (2 : Address) ∈ local2GetAccounts
          (local2CreateKey (fun k => k) encryptC addrHexC (.ok 2) (.ok "p2") (.ok ())
            (local2CreateKey (fun k => k) encryptC addrHexC (.ok 1) (.ok "p1") (.ok ()) km2C []).2.1
            (local2CreateKey (fun k => k) encryptC addrHexC (.ok 1) (.ok "p1") (.ok ()) km2C []).2.2).2.1) :=
  ⟨createKey_twice_distinct_accounts.1 bOk1 bOk2 0 1 [] 11 22 rfl rfl rfl rfl (by decide),
   createKey_twice_distinct_accounts.2 (fun k => k) encryptC addrHexC 1 2 "p1" "p2" [1] [1]
      km2C [] rfl rfl (by decide)⟩

/-- Claim C8 counterexample: a request with a valid API key and valid
HMAC whose timestamp is 1000 seconds in the future (differing from server
time by far more than 60 seconds) is accepted, because the middleware
only checks `now - timestamp > 60`. -/
theorem auth_future_timestamp_accepted :
    authCheck hmC ⟨"k", "s"⟩ 1000 reqFutureC = .pass
    ∧ (60 : Int) < 2000 - 1000 := by
  exact ⟨rfl, by decide⟩

/-- Claim C8 (amended): the middleware rejects every request whose
timestamp is more than 60 seconds in the past, regardless of the HMAC
signature (so a valid-HMAC request 61 seconds old is rejected); a
timestamp not more than 60 seconds in the past — including any timestamp
in the future, by any amount — passes the timestamp check, and with a
valid API key and HMAC such a request is accepted. -/
theorem auth_timestamp_window_amended :
    (∀ (hmacHex : String → String → String) (cfg : AuthConfig) (now : Int) (req : Request)
        (tstr : String) (ts : Int),
      headerGet req.headers "X-API-Key" = cfg.apiKey →
      headerGet req.headers "X-Timestamp" = tstr →
      tstr ≠ "" →
      goParseInt64 tstr = some ts →
      now - ts > 60 →
      authCheck hmacHex cfg now req = .reject 401 "Timestamp expired")
    ∧ (∀ (hmacHex : String → String → String) (cfg : AuthConfig) (now : Int) (req : Request)
        (tstr : String) (ts : Int),
      headerGet req.headers "X-API-Key" = cfg.apiKey →
      headerGet req.headers "X-Timestamp" = tstr →
      tstr ≠ "" →
      goParseInt64 tstr = some ts →
      ¬now - ts > 60 →
      headerGet req.headers "X-Signature" = hmacHex cfg.apiSecret (tstr ++ req.body) →
      hmacHex cfg.apiSecret (tstr ++ req.body) ≠ "" →
      authCheck hmacHex cfg now req = .pass) := by
  constructor
  · intro hmacHex cfg now req tstr ts hk ht hne hp hexp
    simp [authCheck, hk, ht, hne, hp, hexp]
  · intro hmacHex cfg now req tstr ts hk ht hne hp hexp hsig hsne
    simp [authCheck, hk, ht, hne, hp, hexp, hsig, hsne]

/-- Witness for the amended C8: a valid-HMAC request 61 seconds old is
rejected with the timestamp error, and a valid-HMAC future-stamped
request is accepted. -/
theorem auth_timestamp_window_amended_witness :
    authCheck hmC ⟨"k", "s"⟩ 1000 reqPast61C = .reject 401 "Timestamp expired"
    ∧ authCheck hmC ⟨"k", "s"⟩ 1000 reqFutureC = .pass :=
  ⟨auth_timestamp_window_amended.1 hmC ⟨"k", "s"⟩ 1000 reqPast61C "939" 939 rfl rfl
      (by decide) rfl (by decide),
   auth_timestamp_window_amended.2 hmC ⟨"k", "s"⟩ 1000 reqFutureC "2000" 2000 rfl rfl
      (by decide) rfl (by decide) rfl (by decide)⟩

/-- Claim C9: when the configured API key is the empty string, a request
with no X-API-Key header at all passes the API-key check (a missing
header reads as the empty string), so the request can only be rejected by
the timestamp or signature checks. -/
theorem auth_empty_apiKey_missing_header (hmacHex : String → String → String)
    (sec : String) (now : Int) (req : Request)
    (hmiss : alookup req.headers "X-API-Key" = none) :
    authCheck hmacHex ⟨"", sec⟩ now req = .pass
    ∨ authCheck hmacHex ⟨"", sec⟩ now req
        ∈ ([.reject 401 "Missing timestamp header", .reject 401 "Invalid timestamp format",
            .reject 401 "Timestamp expired", .reject 401 "Missing signature header",
            .reject 401 "Invalid signature"] : List AuthResult) := by
  have hk : headerGet req.headers "X-API-Key" = "" := by simp [headerGet, hmiss]
  unfold authCheck
  rw [hk]
  simp only [ne_eq, not_true_eq_false]
  split
  · simp_all
  · split
    · simp
    · split
      · simp
      · split
        · simp
        · split
          · simp
          · split
            · simp
            · simp

/-- Witness for C9: a request with no X-API-Key header, an in-window
timestamp and a valid HMAC; the disjunction is discharged by the claim
theorem at this concrete input. -/
theorem auth_empty_apiKey_missing_header_witness :
    authCheck hmC ⟨"", "s"⟩ 1050 reqNoKeyC = .pass
    ∨ authCheck hmC ⟨"", "s"⟩ 1050 reqNoKeyC
        ∈ ([.reject 401 "Missing timestamp header", .reject 401 "Invalid timestamp format",
            .reject 401 "Timestamp expired", .reject 401 "Missing signature header",
            .reject 401 "Invalid signature"] : List AuthResult) :=
  auth_empty_apiKey_missing_header hmC "s" 1050 reqNoKeyC rfl

/-- Claim C10: the password-taking LocalKeyManager variant never consults
the in-memory accounts set when signing — its result is invariant under
any change of that set, an address whose key file exists and decrypts
signs successfully even when absent from GetAccounts, and an address
without a key file fails with a file-read error whose message is not the
account-not-found error. -/
theorem local2_sign_bypasses_account_map :
    (∀ (sign : Bytes → Nat → Except String Bytes) (pragueHash : Tx → Bytes)
        (decrypt : Bytes → String → Except String Nat) (addrHex : Address → String)
        (fs : List (String × Bytes)) (keyDir : String) (acc acc' : List Address)
        (address : Address) (password : String) (tx : Tx) (chainId : Nat),
      local2SignTx sign pragueHash decrypt addrHex fs ⟨keyDir, acc⟩ address password tx chainId
        = local2SignTx sign pragueHash decrypt addrHex fs ⟨keyDir, acc'⟩ address password tx
            chainId)
    ∧ (∀ (sign : Bytes → Nat → Except String Bytes) (keccak : Bytes → Bytes)
        (decrypt : Bytes → String → Except String Nat) (addrHex : Address → String)
        (fs : List (String × Bytes)) (keyDir : String) (acc acc' : List Address)
        (address : Address) (password : String) (message : Bytes),
      local2SignMessage sign keccak decrypt addrHex fs ⟨keyDir, acc⟩ address password message
        = local2SignMessage sign keccak decrypt addrHex fs ⟨keyDir, acc'⟩ address password
            message)
    ∧ (∀ (sign : Bytes → Nat → Except String Bytes) (keccak : Bytes → Bytes)
        (decrypt : Bytes → String → Except String Nat) (addrHex : Address → String)
        (fs : List (String × Bytes)) (km : LocalKM2) (address : Address) (password : String)
        (message : Bytes) (keyJson : Bytes) (privateKey : Nat) (signature : Bytes),
      address ∉ local2GetAccounts km →
      alookup fs (km.keyDir ++ "/" ++ addrHex address ++ ".json") = some keyJson →
      decrypt keyJson password = .ok privateKey →
      sign (keccak (eip191Bytes message)) privateKey = .ok signature →
      local2SignMessage sign keccak decrypt addrHex fs km address password message
        = .ok (adjustV signature))
    ∧ (∀ (sign : Bytes → Nat → Except String Bytes) (pragueHash : Tx → Bytes)
        (decrypt : Bytes → String → Except String Nat) (addrHex : Address → String)
        (fs : List (String × Bytes)) (km : LocalKM2) (address : Address) (password : String)
        (tx : Tx) (chainId : Nat),
      alookup fs (km.keyDir ++ "/" ++ addrHex address ++ ".json") = none →
      local2SignTx sign pragueHash decrypt addrHex fs km address password tx chainId
        = .error ("failed to read key file for address " ++ addrHex address ++ ": "
            ++ ("open " ++ (km.keyDir ++ "/" ++ addrHex address ++ ".json")
              ++ ": no such file or directory"))
      ∧ local2SignTx sign pragueHash decrypt addrHex fs km address password tx chainId
        ≠ .error ("account not found: " ++ addrHex address)) := by
  refine ⟨?_, ?_, ?_, ?_⟩
  · intro sign pragueHash decrypt addrHex fs keyDir acc acc' address password tx chainId
    rfl
  · intro sign keccak decrypt addrHex fs keyDir acc acc' address password message
    rfl
  · intro sign keccak decrypt addrHex fs km address password message keyJson privateKey
      signature hnot hfile hdec hsig
    simp [local2SignMessage, local2GetPrivateKey, readFile, hfile, hdec, hsig]
  · intro sign pragueHash decrypt addrHex fs km address password tx chainId hfile
    have herr : local2SignTx sign pragueHash decrypt addrHex fs km address password tx chainId
        = .error ("failed to read key file for address " ++ addrHex address ++ ": "
            ++ ("open " ++ (km.keyDir ++ "/" ++ addrHex address ++ ".json")
              ++ ": no such file or directory")) := by
      simp [local2SignTx, local2GetPrivateKey, readFile, hfile]
    refine ⟨herr, ?_⟩
    rw [herr]
    intro hcontra
    injection hcontra with hmsg
    have hdata := congrArg String.data hmsg
    simp [String.data_append] at hdata

/-- Witness for C10: concrete cases — a key file present on disk for an
address absent from the account set signs successfully, and a missing
file yields the file-read error. -/
theorem local2_sign_bypasses_account_map_witness :
    local2SignMessage signC1 keccakC decryptC addrHexC
        [("keys/0x5.json", [7, 7])] km2C 5 "pw" [1, 2, 3]
      = .ok (adjustV (rs64C ++ [1]))
    ∧ (local2SignTx signC0 hashC decryptC addrHexC [] km2C 5 "pw" legacyTxC 1337
        = .error ("failed to read key file for address " ++ addrHexC 5 ++ ": "
            ++ ("open " ++ (km2C.keyDir ++ "/" ++ addrHexC 5 ++ ".json")
              ++ ": no such file or directory"))
      ∧ local2SignTx signC0 hashC decryptC addrHexC [] km2C 5 "pw" legacyTxC 1337
        ≠ .error ("account not found: " ++ addrHexC 5)) :=
  ⟨local2_sign_bypasses_account_map.2.2.1 signC1 keccakC decryptC addrHexC
      [("keys/0x5.json", [7, 7])] km2C 5 "pw" [1, 2, 3] [7, 7] 99 (rs64C ++ [1])
      (by decide) rfl rfl rfl,
   local2_sign_bypasses_account_map.2.2.2 signC0 hashC decryptC addrHexC [] km2C 5 "pw"
      legacyTxC 1337 rfl⟩

end EthSigner
